import Mathlib

/-!
# Renewal Classification & Filtering Engine — verification

Shallow embedding of the policy renewal classification and filtering logic
of the insurance-agent portal (src/src/pages/Policies.tsx and
src/src/pages/Dashboard.tsx), together with theorems settling the frozen
claims about it.

Modelling conventions:
- Instants are epoch milliseconds (`Int`), in one fixed time zone (UTC).
  The backend serves date-only ISO strings; `new Date("YYYY-MM-DD")` parses
  them to UTC midnight, so a policy expiry date is modelled as a calendar
  day number `expiryDay`, with instant `expiryDay * msPerDay`.
- JavaScript numbers used for premiums are modelled as rationals.
- The outcome of the external parse builtins is modelled by small sum
  types: `NumInput` stands for a min/max premium text box together with
  the outcome of `parseFloat` on it (`absent` = empty string, `nan` =
  non-empty string whose parse is NaN, `val` = parsed number), and
  `DateInput` stands for a date text box together with the outcome of
  `new Date(...)` on it (`absent` = empty string, `invalid` = Invalid
  Date, whose comparisons are all false, `val` = parsed instant).
- JS string helpers (`toLowerCase`, `trim`, `includes`) are modelled over
  the character list of the string.
-/

/-- Milliseconds per day, the divisor `1000 * 60 * 60 * 24` used by
`getDaysUntilExpiry` in src/src/pages/Policies.tsx. -/
def msPerDay : Int := 1000 * 60 * 60 * 24

/-- JavaScript `Math.ceil(a / b)` for an integer `a` and positive integer
`b`: exact rational division followed by ceiling, expressed with integer
floor division. -/
def jsCeilDiv (a b : Int) : Int := -((-a) / b)

/-- `getDaysUntilExpiry` from src/src/pages/Policies.tsx lines 232-238:
`Math.ceil((expiry.getTime() - today.getTime()) / (1000*60*60*24))`.
`expiryMs` is the parsed expiry instant, `nowMs` the current instant
(`new Date()` — not normalized to midnight). -/
def getDaysUntilExpiry (expiryMs nowMs : Int) : Int :=
  jsCeilDiv (expiryMs - nowMs) msPerDay

/-- Calendar day number of an instant: the day containing it (floor). -/
def dayOf (ms : Int) : Int := ms / msPerDay

/-- Midnight (start of day) of the calendar day containing an instant. -/
def midnightOf (ms : Int) : Int := dayOf ms * msPerDay

/-- The Policy record served by the backend, as consumed by
src/src/pages/Policies.tsx (interface Policy, lines 10-24). Dates are
modelled as calendar day numbers (see module docstring). -/
structure Policy where
  policyId : Int
  policyNumber : String
  policyType : String
  policyStatus : String
  startDay : Int
  expiryDay : Int
  premium : ℚ
  premiumFrequency : String
  policyDescription : Option String
  clientFullName : String
  clientEmail : String
  clientPhoneNumber : String
  clientAddress : Option String
  deriving DecidableEq, Repr

/-- The instant `new Date(policy.expiryDate).getTime()`: UTC midnight of
the expiry day. -/
def Policy.expiryMs (p : Policy) : Int := p.expiryDay * msPerDay

/-- The four values of the status-bucket tab state `filter` in
src/src/pages/Policies.tsx (buttons set exactly the strings ALL, ACTIVE,
EXPIRING, EXPIRED). -/
inductive StatusBucket where
  | ALL
  | ACTIVE
  | EXPIRING
  | EXPIRED
  deriving DecidableEq, Repr

/-- A min/max premium filter text box together with the outcome of
JavaScript `parseFloat` on its contents (see module docstring). -/
inductive NumInput where
  | absent
  | nan
  | val (x : ℚ)
  deriving DecidableEq, Repr

/-- A date-range filter text box together with the outcome of
JavaScript `new Date(...)` on its contents (see module docstring). -/
inductive DateInput where
  | absent
  | invalid
  | val (ms : Int)
  deriving DecidableEq, Repr

/-- The `advancedFilters` state object of src/src/pages/Policies.tsx
lines 42-49 (all fields initially empty strings). -/
structure AdvancedFilters where
  policyType : String
  premiumFrequency : String
  minPremium : NumInput
  maxPremium : NumInput
  expiryDateFrom : DateInput
  expiryDateTo : DateInput
  deriving DecidableEq, Repr

/-- The cleared advanced-filter state (all fields empty). -/
def neutralAdvanced : AdvancedFilters :=
  { policyType := "", premiumFrequency := "",
    minPremium := NumInput.absent, maxPremium := NumInput.absent,
    expiryDateFrom := DateInput.absent, expiryDateTo := DateInput.absent }

/-- JavaScript `s.toLowerCase()` modelled over the character list. -/
def jsToLower (s : String) : String := String.mk (s.data.map Char.toLower)

/-- ASCII whitespace recognized by JavaScript `trim`. -/
def isJsWhitespace (c : Char) : Bool :=
  c == ' ' || c == '\t' || c == '\n' || c == '\r' || c == '\x0b' || c == '\x0c'

/-- JavaScript `s.trim()` modelled over the character list. -/
def jsTrim (s : String) : String :=
  String.mk (((s.data.dropWhile isJsWhitespace).reverse.dropWhile isJsWhitespace).reverse)

/-- Does `needle` occur at the head of `hay`? -/
def headMatches : List Char → List Char → Bool
  | [], _ => true
  | _ :: _, [] => false
  | c :: cs, d :: ds => c == d && headMatches cs ds

/-- Does `needle` occur as a contiguous sublist of `hay`? -/
def containsSub (needle : List Char) : List Char → Bool
  | [] => needle.isEmpty
  | c :: rest => headMatches needle (c :: rest) || containsSub needle rest

/-- JavaScript `hay.includes(q)` (substring containment). -/
def jsIncludes (hay q : String) : Bool := containsSub q.data hay.data

/-- The expiring-soon test shared by the EXPIRING bucket (line 256) and
the `stats.expiring` count (lines 319-322) of src/src/pages/Policies.tsx:
`policyStatus === ACTIVE && daysUntilExpiry <= 30 && daysUntilExpiry > 0`. -/
def expiringSoonPred (nowMs : Int) (p : Policy) : Bool :=
  p.policyStatus == "ACTIVE"
    && decide (getDaysUntilExpiry p.expiryMs nowMs ≤ 30)
    && decide (getDaysUntilExpiry p.expiryMs nowMs > 0)

/-- The status-bucket portion of the `filteredPolicies` predicate,
src/src/pages/Policies.tsx lines 252-258 (three early-return checks). -/
def bucketPass (bucket : StatusBucket) (nowMs : Int) (p : Policy) : Bool :=
  if bucket == StatusBucket.ACTIVE && p.policyStatus != "ACTIVE" then false
  else if bucket == StatusBucket.EXPIRING && !(expiringSoonPred nowMs p) then false
  else if bucket == StatusBucket.EXPIRED && p.policyStatus != "EXPIRED" then false
  else true

/-- The six lower-cased searchable fields of a policy,
src/src/pages/Policies.tsx lines 263-270. -/
def searchableFields (p : Policy) : List String :=
  [p.policyNumber, p.clientFullName, p.clientEmail, p.clientPhoneNumber,
   p.policyType, p.policyDescription.getD ""].map jsToLower

/-- The free-text-search portion of the `filteredPolicies` predicate,
src/src/pages/Policies.tsx lines 261-273: when the trimmed query is
non-empty, some lower-cased field must contain the lower-cased trimmed
query as a substring. -/
def searchPass (searchQuery : String) (p : Policy) : Bool :=
  if !(jsTrim searchQuery).data.isEmpty
      && !((searchableFields p).any
            (fun f => jsIncludes f (jsTrim (jsToLower searchQuery)))) then false
  else true

/-- The advanced-filters portion of the `filteredPolicies` predicate,
src/src/pages/Policies.tsx lines 276-297. Each check is skipped when the
text box is empty; a NaN `parseFloat` result skips the premium bound
(the `!isNaN` guard), and an Invalid Date makes both date comparisons
false, excluding nothing. -/
def advancedPass (adv : AdvancedFilters) (p : Policy) : Bool :=
  if adv.policyType != "" && p.policyType != adv.policyType then false
  else if adv.premiumFrequency != "" && p.premiumFrequency != adv.premiumFrequency then false
  else if (match adv.minPremium with
           | NumInput.val m => decide (p.premium < m)
           | _ => false) then false
  else if (match adv.maxPremium with
           | NumInput.val m => decide (p.premium > m)
           | _ => false) then false
  else if (match adv.expiryDateFrom with
           | DateInput.val fromMs => decide (p.expiryMs < fromMs)
           | _ => false) then false
  else if (match adv.expiryDateTo with
           | DateInput.val toMs => decide (p.expiryMs > toMs)
           | _ => false) then false
  else true

/-- The complete per-policy predicate of `filteredPolicies`,
src/src/pages/Policies.tsx lines 251-299: status bucket, then free-text
search, then advanced filters, all conjunctive (early returns). -/
def policyPasses (bucket : StatusBucket) (searchQuery : String)
    (adv : AdvancedFilters) (nowMs : Int) (p : Policy) : Bool :=
  bucketPass bucket nowMs p && searchPass searchQuery p && advancedPass adv p

/-- `filteredPolicies` from src/src/pages/Policies.tsx lines 250-301:
`policies.filter(...)` with the combined predicate. -/
def filteredPolicies (policies : List Policy) (bucket : StatusBucket)
    (searchQuery : String) (adv : AdvancedFilters) (nowMs : Int) : List Policy :=
  policies.filter (policyPasses bucket searchQuery adv nowMs)

/-- The summary counters of src/src/pages/Policies.tsx lines 316-324. -/
structure Stats where
  total : Nat
  active : Nat
  expiring : Nat
  expired : Nat
  deriving DecidableEq, Repr

/-- `stats` from src/src/pages/Policies.tsx lines 316-324, computed over
the full `policies` collection (not over `filteredPolicies`). -/
def stats (policies : List Policy) (nowMs : Int) : Stats :=
  { total := policies.length
    active := (policies.filter (fun p => p.policyStatus == "ACTIVE")).length
    expiring := (policies.filter (expiringSoonPred nowMs)).length
    expired := (policies.filter (fun p => p.policyStatus == "EXPIRED")).length }

/-- The derived renewal state of the specification (section 4.1), as the
code realizes it across its call sites: the status gate and Expired label
of the Days Left cell (src/src/pages/Policies.tsx lines 660-671) and the
expiring-soon window of the EXPIRING bucket and row highlight (lines 256
and 613). -/
inductive RenewalState where
  | EXPIRED_BY_DATE
  | EXPIRING_SOON
  | ACTIVE_FAR
  | NOT_ACTIVE
  deriving DecidableEq, Repr

/-- The classifier `classify(policy, today)`: status first, then the day
count, exactly the precedence realized by the code sites named on
`RenewalState`. Returns the renewal state together with
`daysUntilExpiry`. -/
def classify (p : Policy) (nowMs : Int) : RenewalState × Int :=
  let d := getDaysUntilExpiry p.expiryMs nowMs
  if p.policyStatus != "ACTIVE" then (RenewalState.NOT_ACTIVE, d)
  else if d ≤ 0 then (RenewalState.EXPIRED_BY_DATE, d)
  else if d ≤ 30 then (RenewalState.EXPIRING_SOON, d)
  else (RenewalState.ACTIVE_FAR, d)

/-- What the Days Left table cell renders,
src/src/pages/Policies.tsx lines 660-671. -/
inductive DaysLeftCell where
  | daysCount (n : Int)
  | expiredLabel
  | dash
  deriving DecidableEq, Repr

/-- The Days Left cell of src/src/pages/Policies.tsx lines 660-671:
for an ACTIVE policy, the positive day count or the Expired label;
for any other status, a dash and no date-derived indication. -/
def daysLeftCell (p : Policy) (nowMs : Int) : DaysLeftCell :=
  if p.policyStatus == "ACTIVE" then
    let d := getDaysUntilExpiry p.expiryMs nowMs
    if d > 0 then DaysLeftCell.daysCount d else DaysLeftCell.expiredLabel
  else DaysLeftCell.dash

/-- The Expiring Soon predicate of the Dashboard,
src/src/pages/Dashboard.tsx lines 37-41: ACTIVE status and
`expiryDate >= today && expiryDate <= thirtyDaysLater`, where
`thirtyDaysLater` is the current instant plus 30 days
(`setDate(getDate() + 30)`, in the fixed zone). -/
def dashboardExpiringPred (nowMs : Int) (p : Policy) : Bool :=
  if p.policyStatus != "ACTIVE" then false
  else decide (p.expiryMs ≥ nowMs) && decide (p.expiryMs ≤ nowMs + 30 * msPerDay)

/-- The `expiringPolicies` count of src/src/pages/Dashboard.tsx
lines 33-41. -/
def dashboardExpiringCount (policies : List Policy) (nowMs : Int) : Nat :=
  (policies.filter (dashboardExpiringPred nowMs)).length

/-! ## The example collection of specification section 8

Three policies: id 1 ACTIVE expiring today+10 premium 500 type LIFE,
id 2 ACTIVE expiring today+45 premium 1200 type HEALTH,
id 3 EXPIRED expired today-5 premium 300 type LIFE. The reference
instant is noon of day 0. Fields the example leaves unspecified get
neutral values not containing the query strings used. -/

/-- Reference instant for the section 8 example: noon of day 0. -/
def exampleNow : Int := 43200000

/-- Section 8 example policy id 1. -/
def examplePolicy1 : Policy :=
  { policyId := 1, policyNumber := "POL-001", policyType := "LIFE",
    policyStatus := "ACTIVE", startDay := -355, expiryDay := 10,
    premium := 500, premiumFrequency := "YEARLY", policyDescription := none,
    clientFullName := "Asha Rao", clientEmail := "asha@example.com",
    clientPhoneNumber := "111", clientAddress := none }

/-- Section 8 example policy id 2. -/
def examplePolicy2 : Policy :=
  { policyId := 2, policyNumber := "POL-002", policyType := "HEALTH",
    policyStatus := "ACTIVE", startDay := -320, expiryDay := 45,
    premium := 1200, premiumFrequency := "YEARLY", policyDescription := none,
    clientFullName := "Vikram Singh", clientEmail := "vikram@example.com",
    clientPhoneNumber := "222", clientAddress := none }

/-- Section 8 example policy id 3. -/
def examplePolicy3 : Policy :=
  { policyId := 3, policyNumber := "POL-003", policyType := "LIFE",
    policyStatus := "EXPIRED", startDay := -370, expiryDay := -5,
    premium := 300, premiumFrequency := "YEARLY", policyDescription := none,
    clientFullName := "Nora Gil", clientEmail := "nora@example.com",
    clientPhoneNumber := "333", clientAddress := none }

/-- The section 8 example collection. -/
def examplePolicies : List Policy := [examplePolicy1, examplePolicy2, examplePolicy3]

-- quick sanity checks of the arithmetic model
example : jsCeilDiv 1 86400000 = 1 := by decide
example : jsCeilDiv 0 86400000 = 0 := by decide
example : jsCeilDiv (-1) 86400000 = 0 := by decide
example : msPerDay = 86400000 := by decide
example : getDaysUntilExpiry examplePolicy1.expiryMs exampleNow = 10 := by decide
example : filteredPolicies examplePolicies StatusBucket.ALL "health" neutralAdvanced exampleNow
    = [examplePolicy2] := by decide
example : stats examplePolicies exampleNow = ⟨3, 2, 1, 1⟩ := by decide

/-! ## Helper lemmas -/

theorem msPerDay_pos : (0 : Int) < msPerDay := by decide

theorem msPerDay_ne_zero : msPerDay ≠ 0 := by decide

/-- An early return `if c then return false` followed by the rest is the
conjunction of the negated guard with the rest. -/
theorem guard_eq (c r : Bool) : (if c = true then false else r) = (!c && r) := by
  cases c <;> simp

/-- Ceiling division after subtracting a whole number of days: the
unnormalized subtraction still yields the exact calendar-day difference,
because the ceiling absorbs the (negative) fractional part. -/
theorem jsCeilDiv_mul_sub (E n d : Int) (hd : d ≠ 0) :
    jsCeilDiv (E * d - n) d = E - n / d := by
  unfold jsCeilDiv
  have h1 : -(E * d - n) = n + -E * d := by ring
  rw [h1, Int.add_mul_ediv_right n (-E) hd]
  ring

/-- The code day count for an expiry at midnight of day `E` observed at
any instant `n` equals the calendar-day difference `E - dayOf n`. -/
theorem getDaysUntilExpiry_calendar (E n : Int) :
    getDaysUntilExpiry (E * msPerDay) n = E - dayOf n := by
  unfold getDaysUntilExpiry dayOf
  exact jsCeilDiv_mul_sub E n msPerDay msPerDay_ne_zero

theorem dayOf_mul (k : Int) : dayOf (k * msPerDay) = k := by
  unfold dayOf
  exact Int.mul_ediv_cancel k msPerDay_ne_zero

/-- The day count of a policy, in terms of its expiry day. -/
theorem policy_days (p : Policy) (n : Int) :
    getDaysUntilExpiry p.expiryMs n = p.expiryDay - dayOf n := by
  unfold Policy.expiryMs
  exact getDaysUntilExpiry_calendar p.expiryDay n

/-- C1: for every policy and reference instant, the day count used by
classification and filtering equals the ceiling of the date difference
computed after normalizing both dates to midnight of the one fixed zone
(so the unnormalized subtraction in the code loses nothing — the ceiling
absorbs the time of day), and it is exactly the integer number of
calendar days between the expiry date and the day containing the
reference instant. -/
theorem C1_daysUntilExpiry_calendar_day (p : Policy) (now : Int) :
    getDaysUntilExpiry p.expiryMs now
      = getDaysUntilExpiry p.expiryMs (midnightOf now)
    ∧ getDaysUntilExpiry p.expiryMs now = p.expiryDay - dayOf now := by
  constructor
  · rw [policy_days, Policy.expiryMs, midnightOf, getDaysUntilExpiry_calendar, dayOf_mul]
  · exact policy_days p now

/-- C2: an ACTIVE policy whose expiry date is the calendar day of the
reference instant gets day count 0, renewal state EXPIRED_BY_DATE, and
its Days Left cell shows the Expired label, not a positive day count. -/
theorem C2_active_expiry_today_expired (p : Policy) (now : Int)
    (hA : p.policyStatus = "ACTIVE") (hE : p.expiryDay = dayOf now) :
    (classify p now).2 = 0 ∧ (classify p now).1 = RenewalState.EXPIRED_BY_DATE
      ∧ daysLeftCell p now = DaysLeftCell.expiredLabel := by
  have hd : getDaysUntilExpiry p.expiryMs now = 0 := by
    rw [policy_days, hE, sub_self]
  unfold classify daysLeftCell
  simp [hA, hd]

/-- A concrete ACTIVE policy expiring on day 0 (the day of `exampleNow`). -/
def policyExpiringToday : Policy :=
  { examplePolicy1 with policyId := 4, policyNumber := "POL-004", expiryDay := 0 }

/-- Witness for C2 at a concrete input. -/
theorem C2_witness :
    policyExpiringToday.policyStatus = "ACTIVE"
    ∧ policyExpiringToday.expiryDay = dayOf exampleNow
    ∧ ((classify policyExpiringToday exampleNow).2 = 0
        ∧ (classify policyExpiringToday exampleNow).1 = RenewalState.EXPIRED_BY_DATE
        ∧ daysLeftCell policyExpiringToday exampleNow = DaysLeftCell.expiredLabel) :=
  ⟨by decide, by decide,
   C2_active_expiry_today_expired policyExpiringToday exampleNow (by decide) (by decide)⟩

/-- C3: a policy whose status is not ACTIVE is classified NOT_ACTIVE
regardless of its expiry date, and its Days Left cell is a dash — no
date-derived day count or Expired indication. -/
theorem C3_non_active_not_active (p : Policy) (now : Int)
    (h : p.policyStatus ≠ "ACTIVE") :
    (classify p now).1 = RenewalState.NOT_ACTIVE
      ∧ daysLeftCell p now = DaysLeftCell.dash := by
  unfold classify daysLeftCell
  simp [h]

/-- A concrete CANCELLED policy whose expiry date is tomorrow (day 1,
in the future relative to `exampleNow`). -/
def policyCancelledTomorrow : Policy :=
  { examplePolicy1 with
      policyId := 5, policyNumber := "POL-005",
      policyStatus := "CANCELLED", expiryDay := 1 }

/-- Witness for C3 at a concrete input: CANCELLED with expiry tomorrow. -/
theorem C3_witness :
    policyCancelledTomorrow.policyStatus ≠ "ACTIVE"
    ∧ ((classify policyCancelledTomorrow exampleNow).1 = RenewalState.NOT_ACTIVE
        ∧ daysLeftCell policyCancelledTomorrow exampleNow = DaysLeftCell.dash) :=
  ⟨by decide, C3_non_active_not_active policyCancelledTomorrow exampleNow (by decide)⟩

/-- The expiring-soon test written with the conjuncts in the order the
claims use (positivity first). -/
theorem expiringSoonPred_eq (now : Int) (p : Policy) :
    expiringSoonPred now p
      = (p.policyStatus == "ACTIVE"
          && decide (0 < getDaysUntilExpiry p.expiryMs now)
          && decide (getDaysUntilExpiry p.expiryMs now ≤ 30)) := by
  unfold expiringSoonPred
  cases hA : p.policyStatus == "ACTIVE" <;>
    by_cases h1 : getDaysUntilExpiry p.expiryMs now ≤ 30 <;>
      by_cases h2 : 0 < getDaysUntilExpiry p.expiryMs now <;>
        simp_all
  omega

/-- C4: the status-bucket part of the filter predicate, characterized per
bucket: ALL passes every policy; ACTIVE passes exactly the ACTIVE
policies; EXPIRING passes exactly the ACTIVE policies with day count in
(0, 30]; EXPIRED passes exactly the policies whose authoritative status
field is EXPIRED. -/
theorem C4_status_bucket_predicate (p : Policy) (now : Int) :
    bucketPass StatusBucket.ALL now p = true
    ∧ bucketPass StatusBucket.ACTIVE now p = (p.policyStatus == "ACTIVE")
    ∧ bucketPass StatusBucket.EXPIRING now p
        = (p.policyStatus == "ACTIVE"
            && decide (0 < getDaysUntilExpiry p.expiryMs now)
            && decide (getDaysUntilExpiry p.expiryMs now ≤ 30))
    ∧ bucketPass StatusBucket.EXPIRED now p = (p.policyStatus == "EXPIRED") := by
  refine ⟨?_, ?_, ?_, ?_⟩
  · unfold bucketPass
    simp
  · unfold bucketPass
    cases hA : p.policyStatus == "ACTIVE" <;> simp_all
  · unfold bucketPass
    rw [expiringSoonPred_eq]
    cases hA : p.policyStatus == "ACTIVE" <;>
      cases h1 : decide (0 < getDaysUntilExpiry p.expiryMs now) <;>
        cases h2 : decide (getDaysUntilExpiry p.expiryMs now ≤ 30) <;>
          simp_all
  · unfold bucketPass
    cases hE : p.policyStatus == "EXPIRED" <;> simp_all

/-- C5: the free-text-search part of the filter predicate: an empty (or
whitespace-only) query passes every policy, and otherwise a policy passes
exactly when one of the six lower-cased fields policyNumber,
clientFullName, clientEmail, clientPhoneNumber, policyType,
policyDescription-or-empty contains the trimmed lower-cased query as a
substring. On the section 8 example, query health selects exactly policy
id 2 and the empty query selects all three. -/
theorem C5_search_predicate :
    (∀ (q : String) (p : Policy),
        searchPass q p
          = ((jsTrim q).data.isEmpty
              || ([p.policyNumber, p.clientFullName, p.clientEmail,
                   p.clientPhoneNumber, p.policyType,
                   p.policyDescription.getD ""].map jsToLower).any
                    (fun f => jsIncludes f (jsTrim (jsToLower q)))))
    ∧ filteredPolicies examplePolicies StatusBucket.ALL "health" neutralAdvanced exampleNow
        = [examplePolicy2]
    ∧ filteredPolicies examplePolicies StatusBucket.ALL "" neutralAdvanced exampleNow
        = examplePolicies := by
  refine ⟨?_, by decide, by decide⟩
  intro q p
  unfold searchPass searchableFields
  simp only [guard_eq]
  cases hE : (jsTrim q).data.isEmpty <;>
    cases hS : ([p.policyNumber, p.clientFullName, p.clientEmail,
                 p.clientPhoneNumber, p.policyType,
                 p.policyDescription.getD ""].map jsToLower).any
                  (fun f => jsIncludes f (jsTrim (jsToLower q))) <;>
      simp [hE, hS]

/-- C6: the summary counts are computed over the full unfiltered
collection (the aggregate takes no filter criteria at all): total is the
length, active counts status ACTIVE, expiring counts ACTIVE with day
count in (0, 30], expired counts status EXPIRED; on the section 8
example this yields total 3, active 2, expiring 1, expired 1, and the
EXPIRING bucket returns exactly policy id 1. -/
theorem C6_aggregate_counts (policies : List Policy) (now : Int) :
    ((stats policies now).total = policies.length
      ∧ (stats policies now).active
          = policies.countP (fun p => p.policyStatus == "ACTIVE")
      ∧ (stats policies now).expiring
          = policies.countP (fun p =>
              p.policyStatus == "ACTIVE"
                && decide (0 < getDaysUntilExpiry p.expiryMs now)
                && decide (getDaysUntilExpiry p.expiryMs now ≤ 30))
      ∧ (stats policies now).expired
          = policies.countP (fun p => p.policyStatus == "EXPIRED"))
    ∧ stats examplePolicies exampleNow = ⟨3, 2, 1, 1⟩
    ∧ filteredPolicies examplePolicies StatusBucket.EXPIRING "" neutralAdvanced exampleNow
        = [examplePolicy1] := by
  refine ⟨⟨rfl, ?_, ?_, ?_⟩, by decide, by decide⟩
  · rw [List.countP_eq_length_filter]; rfl
  · rw [List.countP_eq_length_filter]
    show (policies.filter (expiringSoonPred now)).length = _
    congr 1
    exact List.filter_congr (fun p _ => expiringSoonPred_eq now p)
  · rw [List.countP_eq_length_filter]; rfl

/-- C7: the filter applied with the neutral criteria — bucket ALL, empty
search query, no advanced constraint — returns the input list itself,
same policies in the same order. -/
theorem C7_neutral_filter_identity (policies : List Policy) (now : Int) :
    filteredPolicies policies StatusBucket.ALL "" neutralAdvanced now = policies := by
  unfold filteredPolicies
  apply List.filter_eq_self.mpr
  intro p _
  unfold policyPasses bucketPass searchPass advancedPass expiringSoonPred neutralAdvanced
  have hq : (jsTrim "").data.isEmpty = true := by decide
  simp [hq]

/-- The advanced-filter pass as an explicit conjunction of its six
negated early-return guards. -/
theorem advancedPass_eq (a : AdvancedFilters) (p : Policy) :
    advancedPass a p
      = (!(a.policyType != "" && p.policyType != a.policyType)
          && (!(a.premiumFrequency != "" && p.premiumFrequency != a.premiumFrequency)
          && (!(match a.minPremium with
                | NumInput.val m => decide (p.premium < m)
                | _ => false)
          && (!(match a.maxPremium with
                | NumInput.val m => decide (p.premium > m)
                | _ => false)
          && (!(match a.expiryDateFrom with
                | DateInput.val fromMs => decide (p.expiryMs < fromMs)
                | _ => false)
          && (!(match a.expiryDateTo with
                | DateInput.val toMs => decide (p.expiryMs > toMs)
                | _ => false)
          && true)))))) := by
  unfold advancedPass
  simp only [guard_eq]

/-- Criteria narrowing: the advanced filters of the second criteria add
one more constraint to those of the first — one field that is absent in
the first is set in the second, all other fields unchanged. -/
def addsOneAdvanced (a a' : AdvancedFilters) : Prop :=
  (a.policyType = "" ∧ a' = { a with policyType := a'.policyType })
  ∨ (a.premiumFrequency = "" ∧ a' = { a with premiumFrequency := a'.premiumFrequency })
  ∨ (a.minPremium = NumInput.absent ∧ a' = { a with minPremium := a'.minPremium })
  ∨ (a.maxPremium = NumInput.absent ∧ a' = { a with maxPremium := a'.maxPremium })
  ∨ (a.expiryDateFrom = DateInput.absent ∧ a' = { a with expiryDateFrom := a'.expiryDateFrom })
  ∨ (a.expiryDateTo = DateInput.absent ∧ a' = { a with expiryDateTo := a'.expiryDateTo })

/-- Passing the narrowed advanced filters implies passing the original
ones: an absent field imposes no constraint. -/
theorem advancedPass_narrow (a a' : AdvancedFilters) (p : Policy)
    (h : addsOneAdvanced a a') (hp : advancedPass a' p = true) :
    advancedPass a p = true := by
  rcases h with ⟨h1, h2⟩ | ⟨h1, h2⟩ | ⟨h1, h2⟩ | ⟨h1, h2⟩ | ⟨h1, h2⟩ | ⟨h1, h2⟩ <;>
    · rw [advancedPass_eq] at hp ⊢
      rw [h2] at hp
      clear h2
      simp only [h1, bne_self_eq_false, Bool.false_and, Bool.not_false, Bool.true_and,
        Bool.and_true, Bool.and_eq_true] at hp ⊢
      tauto

/-- C8: the filter is monotonic under criteria narrowing — adding one
more advanced constraint (while bucket, search query, and the other
advanced fields stay unchanged) never increases the result size, because
every predicate is conjunctive. -/
theorem C8_filter_monotone_narrowing (policies : List Policy)
    (bucket : StatusBucket) (q : String) (now : Int) (a a' : AdvancedFilters)
    (h : addsOneAdvanced a a') :
    (filteredPolicies policies bucket q a' now).length
      ≤ (filteredPolicies policies bucket q a now).length := by
  unfold filteredPolicies
  apply List.Sublist.length_le
  apply List.monotone_filter_right
  intro p hp
  unfold policyPasses at hp ⊢
  simp only [Bool.and_eq_true] at hp ⊢
  exact ⟨hp.1, advancedPass_narrow a a' p h hp.2⟩

/-- The advanced filters with only a minimum premium of 400. -/
def advMin400 : AdvancedFilters := { neutralAdvanced with minPremium := NumInput.val 400 }

/-- Witness for C8 at concrete criteria: adding minPremium 400 to the
neutral criteria. -/
theorem C8_witness :
    addsOneAdvanced neutralAdvanced advMin400
    ∧ (filteredPolicies examplePolicies StatusBucket.ALL "" advMin400 exampleNow).length
        ≤ (filteredPolicies examplePolicies StatusBucket.ALL "" neutralAdvanced
            exampleNow).length :=
  ⟨by unfold addsOneAdvanced; exact Or.inr (Or.inr (Or.inl ⟨rfl, rfl⟩)),
   C8_filter_monotone_narrowing examplePolicies StatusBucket.ALL "" exampleNow
     neutralAdvanced advMin400
     (by unfold addsOneAdvanced; exact Or.inr (Or.inr (Or.inl ⟨rfl, rfl⟩)))⟩

/-- C9: the filter is total by construction, and malformed bounds degrade
to no constraint: a premium bound whose text does not parse as a number
(NaN) filters exactly like an absent bound; a parsed premium bound is
inclusive (premium at least min, at most max); an invalid date in either
range bound excludes no policy, exactly like an absent bound — never a
match-nothing failure. On the section 8 example, minPremium 400 with
maxPremium 1000 selects exactly policy id 1. -/
theorem C9_malformed_bounds_no_constraint :
    (∀ (a : AdvancedFilters) (p : Policy),
        advancedPass { a with minPremium := NumInput.nan } p
          = advancedPass { a with minPremium := NumInput.absent } p)
    ∧ (∀ (a : AdvancedFilters) (p : Policy),
        advancedPass { a with maxPremium := NumInput.nan } p
          = advancedPass { a with maxPremium := NumInput.absent } p)
    ∧ (∀ (a : AdvancedFilters) (p : Policy),
        advancedPass { a with expiryDateFrom := DateInput.invalid } p
          = advancedPass { a with expiryDateFrom := DateInput.absent } p)
    ∧ (∀ (a : AdvancedFilters) (p : Policy),
        advancedPass { a with expiryDateTo := DateInput.invalid } p
          = advancedPass { a with expiryDateTo := DateInput.absent } p)
    ∧ (∀ (a : AdvancedFilters) (p : Policy) (m : ℚ),
        advancedPass { a with minPremium := NumInput.val m } p
          = (advancedPass { a with minPremium := NumInput.absent } p
              && decide (m ≤ p.premium)))
    ∧ (∀ (a : AdvancedFilters) (p : Policy) (m : ℚ),
        advancedPass { a with maxPremium := NumInput.val m } p
          = (advancedPass { a with maxPremium := NumInput.absent } p
              && decide (p.premium ≤ m)))
    ∧ filteredPolicies examplePolicies StatusBucket.ALL ""
        { neutralAdvanced with minPremium := NumInput.val 400,
                               maxPremium := NumInput.val 1000 } exampleNow
        = [examplePolicy1] := by
  refine ⟨fun a p => rfl, fun a p => rfl, fun a p => rfl, fun a p => rfl, ?_, ?_, by decide⟩
  · intro a p m
    simp only [advancedPass_eq]
    have hc : (!decide (p.premium < m)) = decide (m ≤ p.premium) := by
      by_cases h : p.premium < m
      · simp [h, not_le.mpr h]
      · simp [h, not_lt.mp h]
    rw [hc]
    cases hdec : decide (m ≤ p.premium) <;> simp
  · intro a p m
    simp only [advancedPass_eq]
    have hc : (!decide (p.premium > m)) = decide (p.premium ≤ m) := by
      by_cases h : p.premium > m
      · simp [h, not_le.mpr h]
      · simp [h, not_lt.mp h]
    rw [hc]
    cases hdec : decide (p.premium ≤ m) <;> simp

/-- A concrete ACTIVE policy whose expiry instant is exactly the
reference instant (midnight of day 0). -/
def policyExpiresAtMidnight : Policy :=
  { examplePolicy1 with policyId := 6, policyNumber := "POL-006", expiryDay := 0 }

/-- C10 is false as stated: at a reference instant exactly at midnight,
an ACTIVE policy expiring that same instant is counted by the Dashboard
(expiry at least now and at most now plus 30 days) but not by the
Policies page (day count 0 is not positive), so the two counts differ. -/
theorem C10_counterexample :
    ¬ (dashboardExpiringCount [policyExpiresAtMidnight] 0
        = (stats [policyExpiresAtMidnight] 0).expiring) := by decide

/-- C10 amended: the Dashboard Expiring Soon count and the Policies page
expiring count agree at every reference instant whose time of day is
nonzero (any instant strictly after the midnight starting its calendar
day); only at an instant exactly at midnight can they differ (the
Dashboard then additionally counts ACTIVE policies expiring that very
instant). -/
theorem C10_dashboard_policies_expiring_agree (policies : List Policy)
    (T f : Int) (hf0 : 0 < f) (hfd : f < msPerDay) :
    dashboardExpiringCount policies (T * msPerDay + f)
      = (stats policies (T * msPerDay + f)).expiring := by
  unfold dashboardExpiringCount
  show _ = (policies.filter (expiringSoonPred (T * msPerDay + f))).length
  congr 1
  apply List.filter_congr
  intro p _
  have hday : getDaysUntilExpiry p.expiryMs (T * msPerDay + f) = p.expiryDay - T := by
    rw [policy_days]
    unfold dayOf
    rw [add_comm, Int.add_mul_ediv_right f T msPerDay_ne_zero,
        Int.ediv_eq_zero_of_lt (le_of_lt hf0) hfd, zero_add]
  have hms : p.expiryMs = p.expiryDay * 86400000 := rfl
  have hm : msPerDay = 86400000 := rfl
  unfold dashboardExpiringPred expiringSoonPred
  rw [hm] at hfd
  by_cases hA : p.policyStatus = "ACTIVE"
  · simp only [hA, bne_self_eq_false, Bool.false_eq_true, if_false, beq_self_eq_true,
      Bool.true_and]
    rw [hday, hms, hm, Bool.eq_iff_iff]
    simp only [Bool.and_eq_true, decide_eq_true_eq]
    omega
  · have hb : (p.policyStatus == "ACTIVE") = false := by
      simp [hA]
    simp [hA, hb]

/-- Witness for the amended C10 agreement at a concrete instant (noon of
day 0) and the section 8 example collection. -/
theorem C10_witness :
    (0 : Int) < 43200000 ∧ (43200000 : Int) < msPerDay
    ∧ dashboardExpiringCount examplePolicies (0 * msPerDay + 43200000)
        = (stats examplePolicies (0 * msPerDay + 43200000)).expiring :=
  ⟨by decide, by decide,
   C10_dashboard_policies_expiring_agree examplePolicies 0 43200000
     (by decide) (by decide)⟩
